import Mathlib

/-!
Verification of the `mexc-futures-python` SDK against its specification.

The development shallowly embeds the Python modules that the checked
properties touch:

* `mexc_futures/utils/headers.py`   — request signer and header builder;
* `mexc_futures/utils/errors.py`    — error taxonomy and `parse_httpx_error`;
* `mexc_futures/types/market.py`    — depth-entry normalization;
* `mexc_futures/types/orders.py`    — order request/response models;
* `mexc_futures/client.py`          — local validation in `submit_order` and
  `cancel_order`.

Python values decoded from JSON are modelled by the inductive `PyVal`
(numbers as exact rationals; IEEE float repr is outside the model, which
only renders integral numbers — the checked claims never serialize a
non-integral number).  The MD5 digest and the wall clock are external to
the repository and enter the model as parameters (`md5hex : String → String`,
`now_ms : Nat`).  Fallible Python code (uncaught exceptions) is modelled
with `Except String`.
-/

/-- Python value decoded from JSON (`json.loads` output) and, dually, a
JSON-serializable payload handed to `json.dumps`.  Dictionaries keep their
key order, as Python dicts do. -/
inductive PyVal where
  | null : PyVal
  | bool (b : Bool) : PyVal
  | num (q : ℚ) : PyVal
  | str (s : String) : PyVal
  | list (xs : List PyVal) : PyVal
  | dict (fields : List (String × PyVal)) : PyVal

/-- Python's `d.get(k)` on a decoded JSON object.  A decoded object has no
duplicate keys, so first-match lookup agrees with dict lookup. -/
def pyGet (fields : List (String × PyVal)) (k : String) : Option PyVal :=
  (fields.find? (fun p => p.1 == k)).map (fun p => p.2)

/-- Whether `needle` occurs at the head of `hay`. -/
def listStartsWith : List Char → List Char → Bool
  | [], _ => true
  | _ :: _, [] => false
  | a :: as, b :: bs => a == b && listStartsWith as bs

/-- Whether `needle` occurs contiguously anywhere in `hay` (Python's
`needle in hay` on strings). -/
def listHasSub (needle : List Char) : List Char → Bool
  | [] => listStartsWith needle []
  | b :: bs => listStartsWith needle (b :: bs) || listHasSub needle bs

/-- Python's substring containment `needle in hay`. -/
def strHasSub (needle hay : String) : Bool :=
  listHasSub needle.toList hay.toList

/-- Decimal digit characters of `n`, most significant first; the first
argument is structural fuel (any value at least `n` is enough). -/
def natToDecAux : Nat → Nat → List Char
  | 0, _ => []
  | fuel + 1, n =>
      if n = 0 then [] else natToDecAux fuel (n / 10) ++ [Nat.digitChar (n % 10)]

/-- Python's `str(n)` for a natural number: decimal digits, most
significant first. -/
def natToDec (n : Nat) : String :=
  if n = 0 then "0" else List.asString (natToDecAux n n)

/-- Python's `str(i)` for an integer. -/
def intToDec (i : Int) : String :=
  if i < 0 then "-" ++ natToDec i.natAbs else natToDec i.natAbs

/-- Decimal digit characters are distinct for distinct digits. -/
theorem digitChar_inj_of_lt (a b : Nat) (ha : a < 10) (hb : b < 10)
    (h : Nat.digitChar a = Nat.digitChar b) : a = b := by
  interval_cases a <;> interval_cases b <;> simp_all [Nat.digitChar]

/-- Mapping `Nat.digitChar` over lists of digits below 10 is injective. -/
theorem map_digitChar_inj : ∀ (l1 l2 : List Nat), (∀ d ∈ l1, d < 10) →
    (∀ d ∈ l2, d < 10) → l1.map Nat.digitChar = l2.map Nat.digitChar → l1 = l2
  | [], [], _, _, _ => rfl
  | [], _ :: _, _, _, h => by simp at h
  | _ :: _, [], _, _, h => by simp at h
  | a :: l1, b :: l2, h1, h2, h => by
    simp only [List.map_cons, List.cons.injEq] at h
    have hab : a = b :=
      digitChar_inj_of_lt a b (h1 a (by simp)) (h2 b (by simp)) h.1
    have : l1 = l2 :=
      map_digitChar_inj l1 l2 (fun d hd => h1 d (by simp [hd]))
        (fun d hd => h2 d (by simp [hd])) h.2
    rw [hab, this]

/-- A natural whose decimal digit characters read `['0']` is zero. -/
theorem eq_zero_of_digitChars_eq_zero (n : Nat)
    (hdata : (Nat.digits 10 n).map Nat.digitChar = ['0']) : n = 0 := by
  rcases hd : Nat.digits 10 n with _ | ⟨d, rest⟩
  · rw [hd] at hdata; simp at hdata
  · rw [hd] at hdata
    simp only [List.map_cons, List.cons.injEq, List.map_eq_nil_iff] at hdata
    have hd10 : d < 10 :=
      Nat.digits_lt_base (by norm_num) (by rw [hd]; exact List.mem_cons_self d rest)
    have hd0 : d = 0 := digitChar_inj_of_lt d 0 hd10 (by norm_num) hdata.1
    have hdig : Nat.digits 10 n = [0] := by rw [hd, hd0, hdata.2]
    have := Nat.ofDigits_digits 10 n
    rw [hdig] at this
    simpa [Nat.ofDigits] using this.symm

/-- The fuel-based digit rendering agrees with `Nat.digits`. -/
theorem natToDecAux_eq (fuel n : Nat) (h : n ≤ fuel) :
    natToDecAux fuel n = (Nat.digits 10 n).reverse.map Nat.digitChar := by
  induction fuel generalizing n with
  | zero =>
    interval_cases n
    simp [natToDecAux]
  | succ fuel ih =>
    by_cases hn : n = 0
    · simp [natToDecAux, hn]
    · rw [natToDecAux, if_neg hn]
      have hdiv : n / 10 ≤ fuel := by
        have := Nat.div_lt_self (Nat.pos_of_ne_zero hn) (by norm_num : 1 < 10)
        omega
      rw [ih (n / 10) hdiv,
        Nat.digits_def' (by norm_num : (1 : ℕ) < 10) (Nat.pos_of_ne_zero hn)]
      simp

/-- `natToDec` seen through `Nat.digits`. -/
theorem natToDec_eq_digits (n : Nat) :
    natToDec n =
      if n = 0 then "0" else ((Nat.digits 10 n).reverse.map Nat.digitChar).asString := by
  unfold natToDec
  by_cases hn : n = 0
  · rw [if_pos hn, if_pos hn]
  · rw [if_neg hn, if_neg hn, natToDecAux_eq n n le_rfl]

/-- The decimal rendering of naturals is injective: two distinct
millisecond timestamps have distinct string forms. -/
theorem natToDec_injective : Function.Injective natToDec := by
  intro m n h
  rw [natToDec_eq_digits, natToDec_eq_digits] at h
  by_cases hm : m = 0 <;> by_cases hn : n = 0
  · rw [hm, hn]
  · exfalso
    rw [if_pos hm, if_neg hn] at h
    have hdata : (Nat.digits 10 n).map Nat.digitChar = ['0'] := by
      have := congrArg String.toList h.symm
      simpa [List.asString, String.toList] using this
    exact hn (eq_zero_of_digitChars_eq_zero n hdata)
  · exfalso
    rw [if_neg hm, if_pos hn] at h
    have hdata : (Nat.digits 10 m).map Nat.digitChar = ['0'] := by
      have := congrArg String.toList h
      simpa [List.asString, String.toList] using this
    exact hm (eq_zero_of_digitChars_eq_zero m hdata)
  · rw [if_neg hm, if_neg hn] at h
    have hdata : (Nat.digits 10 m).map Nat.digitChar =
        (Nat.digits 10 n).map Nat.digitChar := by
      have := congrArg String.toList h
      simpa [List.asString, String.toList] using this
    have : Nat.digits 10 m = Nat.digits 10 n := by
      refine map_digitChar_inj _ _ ?_ ?_ hdata
      · intro d hd; exact Nat.digits_lt_base (by norm_num) hd
      · intro d hd; exact Nat.digits_lt_base (by norm_num) hd
    exact Nat.digits_inj_iff.mp this

/-- Rendering of a JSON number by `json.dumps`.  Python ints render as
their decimal form, which the model captures exactly; the shortest
round-trip repr of a non-integral IEEE float is outside the model and is
rendered as `num/den` instead. -/
def numRepr (q : ℚ) : String :=
  if q.den = 1 then intToDec q.num else intToDec q.num ++ "/" ++ natToDec q.den

/-- Escaping of string content performed by `json.dumps` (the claims only
exercise quote and backslash escapes). -/
def jsonEscape (s : String) : String :=
  s.toList.foldl
    (fun acc c =>
      if c = '\\' then acc ++ "\\\\"
      else if c = '"' then acc ++ "\\\"" else acc ++ String.singleton c) ""

mutual

/-- Embedding of `json.dumps(obj, separators=(',', ':'))` from
`utils/headers.py` line 38: compact JSON, no inserted whitespace, fields
kept in dictionary (insertion) order, no key sorting. -/
def dumps : PyVal → String
  | .null => "null"
  | .bool true => "true"
  | .bool false => "false"
  | .num q => numRepr q
  | .str s => "\"" ++ jsonEscape s ++ "\""
  | .list xs => "[" ++ dumpsList xs ++ "]"
  | .dict fs => "\x7b" ++ dumpsFields fs ++ "\x7d"

/-- Array elements joined by a bare comma. -/
def dumpsList : List PyVal → String
  | [] => ""
  | [x] => dumps x
  | x :: y :: rest => dumps x ++ "," ++ dumpsList (y :: rest)

/-- Object fields joined by a bare comma, each rendered `"key":value`,
in the order the dictionary holds them. -/
def dumpsFields : List (String × PyVal) → String
  | [] => ""
  | [(k, v)] => "\"" ++ jsonEscape k ++ "\":" ++ dumps v
  | (k, v) :: p :: rest =>
      "\"" ++ jsonEscape k ++ "\":" ++ dumps v ++ "," ++ dumpsFields (p :: rest)

end

/-- Return value of `mexc_crypto`: the `{"time": ..., "sign": ...}` pair. -/
structure SigResult where
  time : String
  sign : String
deriving DecidableEq, Repr

/-- Embedding of `mexc_crypto` (`utils/headers.py` lines 25-41).  The MD5
hex digest (`hashlib.md5(...).hexdigest()`) is the parameter `md5hex`; the
wall clock reading `int(time.time() * 1000)` is the parameter `now_ms`. -/
def mexc_crypto (md5hex : String → String) (now_ms : Nat) (key : String)
    (obj : PyVal) : SigResult :=
  let date_now := natToDec now_ms
  let g := (md5hex (key ++ date_now)).drop 7
  let s := dumps obj
  let sign := md5hex (date_now ++ s ++ g)
  { time := date_now, sign := sign }

/-- The exact string fed to the second digest in `mexc_crypto`. -/
def sigInput (md5hex : String → String) (now_ms : Nat) (key : String)
    (obj : PyVal) : String :=
  natToDec now_ms ++ dumps obj ++ (md5hex (key ++ natToDec now_ms)).drop 7

/-- A Python `dict[str, str]` as an insertion-ordered association list. -/
abbrev HDict := List (String × String)

/-- Python's `d[k] = v`: overwrite in place when the key exists, append
otherwise. -/
def dictSet (d : HDict) (k v : String) : HDict :=
  if d.any (fun p => p.1 == k) then
    d.map (fun p => if p.1 == k then (k, v) else p)
  else d ++ [(k, v)]

/-- Python's `d.update(e)`: assign every pair of `e` in order. -/
def dictUpdate (d : HDict) (e : List (String × String)) : HDict :=
  e.foldl (fun acc p => dictSet acc p.1 p.2) d

/-- Python's `d.get(k)` on a string dict. -/
def dictGet (d : HDict) (k : String) : Option String :=
  (d.find? (fun p => p.1 == k)).map (fun p => p.2)

/-- Modelled from the spec: `DEFAULT_HEADERS` lives in
`utils/constants.py`, which is not among the provided sources.  The spec
says only that every request starts from "a fixed default header set" and
that the builder may override its user-agent entry; the concrete pairs
below are placeholders and no proof depends on them. -/
def DEFAULT_HEADERS : HDict :=
  [("content-type", "application/json"), ("user-agent", "MEXC-Futures-SDK")]

/-- Embedding of `SDKOptions` (`utils/headers.py` lines 11-22).  A `None`
`custom_headers` argument is already replaced by `{}` in `__init__`. -/
structure SDKOptions where
  auth_token : String
  user_agent : Option String
  custom_headers : List (String × String)

/-- Embedding of `generate_headers` (`utils/headers.py` lines 44-81).
Python's `if options.user_agent:` is truthiness, so an empty user-agent
string counts as absent. -/
def generate_headers (md5hex : String → String) (now_ms : Nat)
    (options : SDKOptions) (include_auth : Bool) (request_body : Option PyVal) :
    HDict :=
  let headers := DEFAULT_HEADERS
  let headers :=
    match options.user_agent with
    | some ua => if ua ≠ "" then dictSet headers "user-agent" ua else headers
    | none => headers
  let headers := dictUpdate headers options.custom_headers
  if include_auth then
    let headers := dictSet headers "authorization" options.auth_token
    match request_body with
    | some body =>
        let signature := mexc_crypto md5hex now_ms options.auth_token body
        dictSet (dictSet headers "x-mxc-nonce" signature.time)
          "x-mxc-sign" signature.sign
    | none => headers
  else headers

/-- The caller-supplied user-agent as an overlay dict (present and
non-empty, per Python truthiness). -/
def uaOverlay (options : SDKOptions) : List (String × String) :=
  match options.user_agent with
  | some ua => if ua ≠ "" then [("user-agent", ua)] else []
  | none => []

/-- The defaults overlaid by the caller user-agent and then by the
caller custom headers, before any authentication fields. -/
def headersBase (options : SDKOptions) : HDict :=
  dictUpdate (dictUpdate DEFAULT_HEADERS (uaOverlay options))
    options.custom_headers

/-- The header mapping as the spec words it (section 4.2): the fixed
default set, overlaid by the caller user-agent, then by the caller custom
headers, then — when authentication is required — the bearer token, and
finally the two signature fields when a body is present. -/
def headersSpec (md5hex : String → String) (now_ms : Nat)
    (options : SDKOptions) (include_auth : Bool) (request_body : Option PyVal) :
    HDict :=
  let base := headersBase options
  let withAuth :=
    if include_auth then dictSet base "authorization" options.auth_token
    else base
  match request_body with
  | some body =>
      if include_auth then
        let signature := mexc_crypto md5hex now_ms options.auth_token body
        dictUpdate withAuth
          [("x-mxc-nonce", signature.time), ("x-mxc-sign", signature.sign)]
      else withAuth
  | none => withAuth

mutual

/-- Python's `repr` of a JSON-decoded value, used through `str` on
containers (single-quoted strings, `", "` separators).  Exact float repr
is outside the model, as in `numRepr`. -/
def pyRepr : PyVal → String
  | .null => "None"
  | .bool true => "True"
  | .bool false => "False"
  | .num q => numRepr q
  | .str s => "\x27" ++ s ++ "\x27"
  | .list xs => "[" ++ pyReprList xs ++ "]"
  | .dict fs => "\x7b" ++ pyReprFields fs ++ "\x7d"

/-- List elements of a `repr`, joined by `", "`. -/
def pyReprList : List PyVal → String
  | [] => ""
  | [x] => pyRepr x
  | x :: y :: rest => pyRepr x ++ ", " ++ pyReprList (y :: rest)

/-- Dict items of a `repr`, joined by `", "`. -/
def pyReprFields : List (String × PyVal) → String
  | [] => ""
  | [(k, v)] => "\x27" ++ k ++ "\x27: " ++ pyRepr v
  | (k, v) :: p :: rest =>
      "\x27" ++ k ++ "\x27: " ++ pyRepr v ++ ", " ++ pyReprFields (p :: rest)

end

/-- Python's `str` of a JSON-decoded value: a string passes through
unchanged, anything else renders by `repr`. -/
def pyStr : PyVal → String
  | .str s => s
  | v => pyRepr v

/-- Python's `==` between a decoded JSON value and an int literal, as in
`code == 602` (`utils/errors.py` line 238).  `bool` is an int subclass in
Python, so `True == 1`; strings and containers never equal an int. -/
def pyEqNum (v : PyVal) (n : ℚ) : Bool :=
  match v with
  | .num q => q == n
  | .bool b => (if b then (1 : ℚ) else 0) == n
  | _ => false

/-- Python's `message or default` idiom on an optional string argument:
`None` and the empty string both fall back to the default. -/
def pyOrDefault (message : Option String) (dflt : String) : String :=
  match message with
  | some m => if m = "" then dflt else m
  | none => dflt

/-- Characters stripped by Python's `int(...)`/`float(...)` string
parsing. -/
def isSpaceChar (c : Char) : Bool :=
  c = ' ' || c = '\t' || c = '\n' || c = '\r' || c = '\x0b' || c = '\x0c'

/-- Both-ends whitespace strip on a character list. -/
def trimChars (cs : List Char) : List Char :=
  ((cs.dropWhile isSpaceChar).reverse.dropWhile isSpaceChar).reverse

/-- Digits of a decimal literal as a natural number; `none` when a
non-digit occurs or the list is empty. -/
def decDigitsToNat : List Char → Option Nat
  | [] => none
  | cs =>
      cs.foldl
        (fun acc c =>
          match acc with
          | none => none
          | some n => if c.isDigit then some (n * 10 + (c.toNat - '0'.toNat)) else none)
        (some 0)

/-- ASCII lower-casing of one character. -/
def asciiLower (c : Char) : Char :=
  if 'A' ≤ c && c ≤ 'Z' then Char.ofNat (c.toNat + 32) else c

/-- Python's `s.lower()`; non-ASCII case mapping is outside the model. -/
def strLower (s : String) : String :=
  List.asString (s.toList.map asciiLower)

/-- Python's `int(s)` on a string: optional surrounding whitespace and an
optional sign, otherwise decimal digits; anything else raises
`ValueError` (modelled by `none`).  Underscore separators and non-ASCII
digits are outside the model. -/
def pyParseInt (s : String) : Option Int :=
  match trimChars s.toList with
  | '-' :: rest => (decDigitsToNat rest).map (fun n => -(n : Int))
  | '+' :: rest => (decDigitsToNat rest).map (fun n => (n : Int))
  | t => (decDigitsToNat t).map (fun n => (n : Int))

/-- The error taxonomy of `utils/errors.py`: one kind per exception
class. -/
inductive ErrKind where
  | base : ErrKind
  | authentication : ErrKind
  | api : ErrKind
  | network : ErrKind
  | validation : ErrKind
  | signature : ErrKind
  | rateLimit : ErrKind
deriving DecidableEq, Repr

/-- The `response_data` attached to an `MexcApiError`: the parsed JSON
body when `response.json()` succeeds, the raw text otherwise. -/
inductive RespData where
  | json (v : PyVal) : RespData
  | text (t : String) : RespData

/-- An instance of the `MexcFuturesError` hierarchy: the class (kind)
plus the attributes the constructors set.  `code` keeps its Python
dynamic type (`str` constants or a JSON value). -/
structure MexcErr where
  kind : ErrKind
  message : String
  code : PyVal
  status_code : Option Int := none
  retry_after : Option Int := none
  endpoint : Option String := none
  method : Option String := none
  response_data : Option RespData := none
  field : Option String := none

/-- Constructor of `MexcAuthenticationError` (`utils/errors.py` lines
42-53): fixed code `"AUTH_ERROR"`, fixed status 401, default message when
the argument is absent or falsy. -/
def mkAuthenticationError (message : Option String) : MexcErr :=
  { kind := .authentication
    message :=
      pyOrDefault message
        "Authentication failed. Please check your authorization token."
    code := .str "AUTH_ERROR"
    status_code := some 401 }

/-- Constructor of `MexcApiError` (`utils/errors.py` lines 68-81). -/
def mkApiError (message : String) (code : PyVal) (status_code : Int)
    (endpoint method : Option String) (response_data : RespData) : MexcErr :=
  { kind := .api
    message := message
    code := code
    status_code := some status_code
    endpoint := endpoint
    method := method
    response_data := some response_data }

/-- Constructor of `MexcNetworkError` (`utils/errors.py` lines 119-124). -/
def mkNetworkError (message : String) : MexcErr :=
  { kind := .network, message := message, code := .str "NETWORK_ERROR" }

/-- Constructor of `MexcValidationError` (`utils/errors.py` lines
139-141). -/
def mkValidationError (message : String) (fieldName : Option String) :
    MexcErr :=
  { kind := .validation
    message := message
    code := .str "VALIDATION_ERROR"
    field := fieldName }

/-- Constructor of `MexcSignatureError` (`utils/errors.py` lines
153-164): fixed code `"SIGNATURE_ERROR"`, fixed status 602. -/
def mkSignatureError (message : Option String) : MexcErr :=
  { kind := .signature
    message := pyOrDefault message "Request signature verification failed"
    code := .str "SIGNATURE_ERROR"
    status_code := some 602 }

/-- Constructor of `MexcRateLimitError` (`utils/errors.py` lines
177-189): fixed code `"RATE_LIMIT"`, fixed status 429, optional
`retry_after` seconds. -/
def mkRateLimitError (message : String) (retry_after : Option Int) : MexcErr :=
  { kind := .rateLimit
    message := message
    code := .str "RATE_LIMIT"
    status_code := some 429
    retry_after := retry_after }

/-- Constructor of the bare `MexcFuturesError` fallback
(`utils/errors.py` lines 259-263). -/
def mkUnknownError (message : String) : MexcErr :=
  { kind := .base, message := message, code := .str "UNKNOWN_ERROR" }

/-- The token-expired text of
`MexcAuthenticationError.get_user_friendly_message`
(`utils/errors.py` lines 57-61). -/
def authExpiredText : String :=
  "❌ Authentication failed. Your authorization token may be expired or invalid. Please update your WEB token from browser Developer Tools."

/-- Embedding of `MexcAuthenticationError.get_user_friendly_message`
(`utils/errors.py` lines 55-62).  The guard compares `self.code`
(always the string `"AUTH_ERROR"`) with the int 401 under Python `==`. -/
def authUserFriendlyMessage (e : MexcErr) : String :=
  if pyEqNum e.code 401 then authExpiredText
  else "❌ Authentication error: " ++ e.message

/-- The slice of an `httpx.Response` that `parse_httpx_error` inspects:
status, parse result of `response.json()` (`none` when parsing raises),
raw text, and headers. -/
structure HttpResponse where
  status_code : Int
  jsonBody : Option PyVal
  text : String
  headers : List (String × String)

/-- The transport exceptions `parse_httpx_error` distinguishes, by the
`isinstance` chain in `utils/errors.py` lines 208-216. -/
inductive HttpxException where
  | connectError (msg : String) : HttpxException
  | networkError (msg : String) : HttpxException
  | timeoutException (msg : String) : HttpxException
  | httpStatusError (msg : String) (response : HttpResponse) : HttpxException
  | otherException (msg : String) : HttpxException

/-- Lookup in httpx response headers; httpx header names are
case-insensitive. -/
def headerGet (hs : List (String × String)) (k : String) : Option String :=
  (hs.find? (fun p => strLower p.1 == strLower k)).map (fun p => p.2)

/-- The `try: data = response.json(); message = data.get(...);
code = data.get(...)` block of `parse_httpx_error`: the pair is extracted
only when the body parses to a dict — on a non-dict JSON value `.get`
raises `AttributeError`, caught by the same `except`, and the fallback
`(str(error), status_code)` applies. -/
def extractPair (response : HttpResponse) (errMsg : String) :
    Option (String × PyVal) :=
  match response.jsonBody with
  | some (.dict fields) =>
      some (pyStr ((pyGet fields "message").getD (.str errMsg)),
        (pyGet fields "code").getD (.num response.status_code))
  | _ => none

/-- The resolved `message` of `parse_httpx_error`. -/
def extractedMessage (response : HttpResponse) (errMsg : String) : String :=
  ((extractPair response errMsg).map (fun p => p.1)).getD errMsg

/-- The resolved `code` of `parse_httpx_error`. -/
def extractedCode (response : HttpResponse) (errMsg : String) : PyVal :=
  ((extractPair response errMsg).map (fun p => p.2)).getD
    (.num response.status_code)

/-- Embedding of `parse_httpx_error` (`utils/errors.py` lines 197-263).
The `Except` error case models an exception escaping the classifier
itself: `int(retry_after)` on a non-empty, non-numeric `retry-after`
header raises an uncaught `ValueError` (line 233). -/
def parse_httpx_error (error : HttpxException)
    (endpoint method : Option String) : Except String MexcErr :=
  match error with
  | .connectError m => .ok (mkNetworkError m)
  | .networkError m => .ok (mkNetworkError m)
  | .timeoutException _ => .ok (mkNetworkError "Request timeout")
  | .httpStatusError errMsg response =>
      let status_code := response.status_code
      let message := extractedMessage response errMsg
      let code := extractedCode response errMsg
      if status_code = 401 then .ok (mkAuthenticationError (some message))
      else if status_code = 429 then
        match headerGet response.headers "retry-after" with
        | none => .ok (mkRateLimitError message none)
        | some ra =>
            if ra = "" then .ok (mkRateLimitError message none)
            else
              match pyParseInt ra with
              | some n => .ok (mkRateLimitError message (some n))
              | none => .error "ValueError: invalid literal for int"
      else if pyEqNum code 602 || strHasSub "signature" (strLower message) then
        .ok (mkSignatureError (some message))
      else
        let response_data : RespData :=
          match response.jsonBody with
          | some v => .json v
          | none => .text response.text
        .ok (mkApiError message code status_code endpoint method response_data)
  | .otherException m => .ok (mkUnknownError m)

/-- Split a character list at its first dot; `none` when a second dot
occurs (an invalid float literal). -/
def splitDot : List Char → Option (List Char × Option (List Char))
  | [] => some ([], none)
  | c :: rest =>
      if c = '.' then
        if rest.contains '.' then none else some ([], some rest)
      else (splitDot rest).map (fun p => (c :: p.1, p.2))

/-- Python's `float(s)` on a string, restricted to plain decimal
literals `[sign] digits [. digits]` with surrounding whitespace;
exponents, `inf` and `nan` are outside the model and map to `none`
(`ValueError`). -/
def strToRat (s : String) : Option ℚ :=
  let t0 := trimChars s.toList
  let signedBody : Bool × List Char :=
    match t0 with
    | '-' :: rest => (true, rest)
    | '+' :: rest => (false, rest)
    | t => (false, t)
  let neg := signedBody.1
  let t := signedBody.2
  let signed (q : ℚ) : ℚ := if neg then -q else q
  match splitDot t with
  | none => none
  | some (intPart, none) => (decDigitsToNat intPart).map (fun n => signed n)
  | some (intPart, some fracPart) =>
      if intPart = [] && fracPart = [] then none
      else
        let ia : Option Nat := if intPart = [] then some 0 else decDigitsToNat intPart
        let fb : Option (Nat × Nat) :=
          if fracPart = [] then some (0, 0)
          else (decDigitsToNat fracPart).map (fun n => (n, fracPart.length))
        match ia, fb with
        | some n, some (f, len) => some (signed (n + (f : ℚ) / (10 : ℚ) ^ len))
        | _, _ => none

/-- Python's `float(x)` on a decoded JSON value. -/
def pyFloat : PyVal → Except String ℚ
  | .num q => .ok q
  | .bool b => .ok (if b then 1 else 0)
  | .str s =>
      match strToRat s with
      | some q => .ok q
      | none => .error "ValueError: could not convert string to float"
  | _ => .error "TypeError: float() argument"

/-- Truncation toward zero, Python's `int()` on a number. -/
def ratTrunc (q : ℚ) : Int :=
  Int.tdiv q.num (Int.ofNat q.den)

/-- Python's `int(x)` on a decoded JSON value. -/
def pyInt : PyVal → Except String Int
  | .num q => .ok (ratTrunc q)
  | .bool b => .ok (if b then 1 else 0)
  | .str s =>
      match pyParseInt s with
      | some n => .ok n
      | none => .error "ValueError: invalid literal for int"
  | _ => .error "TypeError: int() argument"

/-- The canonical depth entry of `types/market.py` lines 107-111:
`price`, `volume`, optional `count`. -/
structure DepthEntry where
  price : ℚ
  volume : ℚ
  count : Option Int
deriving DecidableEq, Repr

/-- Pydantic coercion to `float` for the `price`/`volume` fields:
numbers pass through, numeric strings parse, anything else fails. -/
def coerceFloat : PyVal → Except String ℚ
  | .num q => .ok q
  | .str s =>
      match strToRat s with
      | some q => .ok q
      | none => .error "value is not a valid float"
  | _ => .error "value is not a valid float"

/-- Pydantic coercion to `int` for the `count` field: integral numbers
and integer strings pass, anything else fails. -/
def coerceInt : PyVal → Except String Int
  | .num q => if q.den = 1 then .ok q.num else .error "value is not a valid int"
  | .str s =>
      match pyParseInt s with
      | some n => .ok n
      | none => .error "value is not a valid int"
  | _ => .error "value is not a valid int"

/-- Keyword construction `DepthEntry(**value)` from a dict: `price` and
`volume` required, `count` optional (default `None`), extra keys
ignored (pydantic default). -/
def depthFromDict (fields : List (String × PyVal)) : Except String DepthEntry := do
  let p ←
    match pyGet fields "price" with
    | some v => coerceFloat v
    | none => .error "price: field required"
  let v ←
    match pyGet fields "volume" with
    | some v => coerceFloat v
    | none => .error "volume: field required"
  let c ←
    match pyGet fields "count" with
    | none => .ok none
    | some .null => .ok none
    | some v => (coerceInt v).map some
  .ok { price := p, volume := v, count := c }

/-- Embedding of `DepthEntry.validate` (`types/market.py` lines 119-133):
a positional array of at least two elements becomes
`price, volume, count?` via `float`/`int` conversion, a dict goes through
keyword construction, anything else raises `ValueError`.  (The
`isinstance(value, cls)` passthrough branch cannot receive a JSON-decoded
value and is not modelled.) -/
def DepthEntry.validate (value : PyVal) : Except String DepthEntry :=
  match value with
  | .list (a :: b :: rest) => do
      let p ← pyFloat a
      let v ← pyFloat b
      match rest with
      | [] => .ok { price := p, volume := v, count := none }
      | c :: _ => do
          let n ← pyInt c
          .ok { price := p, volume := v, count := some n }
  | .dict fields => depthFromDict fields
  | _ => .error "ValueError: cannot convert to DepthEntry"

/-- Pydantic coercion to `bool`. -/
def coerceBool : PyVal → Except String Bool
  | .bool b => .ok b
  | _ => .error "value is not a valid boolean"

/-- Pydantic coercion to `str`. -/
def coerceStr : PyVal → Except String String
  | .str s => .ok s
  | _ => .error "value is not a valid string"

/-- Pydantic validation of a `Literal[...]` int field: the value must
equal one of the listed numbers. -/
def coerceLiteral (allowed : List ℚ) : PyVal → Except String Int
  | .num q => if allowed.contains q then .ok q.num else .error "unexpected value"
  | _ => .error "unexpected value"

/-- A required pydantic field: missing key fails validation, otherwise
the value is coerced. -/
def reqField (fields : List (String × PyVal)) (k : String)
    (coerce : PyVal → Except String α) : Except String α :=
  match pyGet fields k with
  | some v => coerce v
  | none => .error (k ++ ": field required")

/-- An optional pydantic field with default `None`: missing key and JSON
`null` both give `none`. -/
def optField (fields : List (String × PyVal)) (k : String)
    (coerce : PyVal → Except String α) : Except String (Option α) :=
  match pyGet fields k with
  | none => .ok none
  | some .null => .ok none
  | some v => (coerce v).map some

/-- Pydantic coercion of a JSON array field, element by element. -/
def coerceList (elem : PyVal → Except String α) : PyVal → Except String (List α)
  | .list xs => xs.mapM elem
  | _ => .error "value is not a valid list"

/-- Embedding of the `SubmitOrderRequest` pydantic model
(`types/orders.py` lines 129-143). -/
structure SubmitOrderRequest where
  symbol : String
  price : ℚ
  vol : ℚ
  leverage : Option Int
  side : Int
  type : Int
  openType : Int
  positionId : Option Int
  externalOid : Option String
  stopLossPrice : Option ℚ
  takeProfitPrice : Option ℚ
  positionMode : Option Int
  reduceOnly : Option Bool
deriving DecidableEq, Repr

/-- Validation performed by `SubmitOrderRequest(**order_params)`: the
declared pydantic fields in declaration order.  `side` must lie in
`Literal[1, 2, 3, 4]`. -/
def mkSubmitOrderRequest (fields : List (String × PyVal)) :
    Except String SubmitOrderRequest := do
  let symbol ← reqField fields "symbol" coerceStr
  let price ← reqField fields "price" coerceFloat
  let vol ← reqField fields "vol" coerceFloat
  let leverage ← optField fields "leverage" coerceInt
  let side ← reqField fields "side" (coerceLiteral [1, 2, 3, 4])
  let type ← reqField fields "type" (coerceLiteral [1, 2, 3, 4, 5, 6])
  let openType ← reqField fields "openType" (coerceLiteral [1, 2])
  let positionId ← optField fields "positionId" coerceInt
  let externalOid ← optField fields "externalOid" coerceStr
  let stopLossPrice ← optField fields "stopLossPrice" coerceFloat
  let takeProfitPrice ← optField fields "takeProfitPrice" coerceFloat
  let positionMode ← optField fields "positionMode" (coerceLiteral [1, 2])
  let reduceOnly ← optField fields "reduceOnly" coerceBool
  .ok { symbol := symbol, price := price, vol := vol, leverage := leverage,
        side := side, type := type, openType := openType,
        positionId := positionId, externalOid := externalOid,
        stopLossPrice := stopLossPrice, takeProfitPrice := takeProfitPrice,
        positionMode := positionMode, reduceOnly := reduceOnly }

/-- Optional int rendered back to a JSON value by `model_dump`. -/
def optIntVal : Option Int → PyVal
  | some n => .num (n : ℚ)
  | none => .null

/-- Optional float rendered back to a JSON value by `model_dump`. -/
def optRatVal : Option ℚ → PyVal
  | some q => .num q
  | none => .null

/-- Optional string rendered back to a JSON value by `model_dump`. -/
def optStrVal : Option String → PyVal
  | some s => .str s
  | none => .null

/-- Optional bool rendered back to a JSON value by `model_dump`. -/
def optBoolVal : Option Bool → PyVal
  | some b => .bool b
  | none => .null

/-- `SubmitOrderRequest.model_dump()`: all declared fields in
declaration order, `None` values included. -/
def SubmitOrderRequest.model_dump (r : SubmitOrderRequest) : PyVal :=
  .dict [("symbol", .str r.symbol), ("price", .num r.price),
    ("vol", .num r.vol), ("leverage", optIntVal r.leverage),
    ("side", .num (r.side : ℚ)), ("type", .num (r.type : ℚ)),
    ("openType", .num (r.openType : ℚ)),
    ("positionId", optIntVal r.positionId),
    ("externalOid", optStrVal r.externalOid),
    ("stopLossPrice", optRatVal r.stopLossPrice),
    ("takeProfitPrice", optRatVal r.takeProfitPrice),
    ("positionMode", optIntVal r.positionMode),
    ("reduceOnly", optBoolVal r.reduceOnly)]

/-- A failure escaping a client method: either a raised
`MexcFuturesError` or an uncaught Python exception (e.g. a pydantic
`ValidationError` while building the response model). -/
inductive SdkFailure where
  | mexc (e : MexcErr) : SdkFailure
  | pyError (s : String) : SdkFailure

/-- The `_request` transport step, abstracted: endpoint and JSON body in,
parsed response JSON (or a classified failure) out.  Claims about "no
network call" quantify over this function. -/
abbrev NetworkFn := String → PyVal → Except SdkFailure PyVal

/-- Modelled from the spec: `ENDPOINTS` lives in `utils/constants.py`,
which is not among the provided sources.  The submit path is named in the
`submit_order` docstring (`client.py` line 164); the cancel path is a
placeholder and no proof depends on either value. -/
def ENDPOINTS_SUBMIT_ORDER : String := "/api/v1/private/order/submit"

/-- Modelled from the spec: see `ENDPOINTS_SUBMIT_ORDER`. -/
def ENDPOINTS_CANCEL_ORDER : String := "/api/v1/private/order/cancel"

/-- Embedding of the `SubmitOrderResponse` pydantic model
(`types/orders.py` lines 146-151). -/
structure SubmitOrderResponse where
  success : Bool
  code : Int
  message : Option String
  data : Option Int
deriving DecidableEq, Repr

/-- Validation performed by `SubmitOrderResponse(**response_data)`. -/
def parseSubmitOrderResponse (v : PyVal) : Except String SubmitOrderResponse :=
  match v with
  | .dict fs => do
      let success ← reqField fs "success" coerceBool
      let code ← reqField fs "code" coerceInt
      let message ← optField fs "message" coerceStr
      let data ← optField fs "data" coerceInt
      .ok { success := success, code := code, message := message, data := data }
  | _ => .error "value is not a valid dict"

/-- Embedding of `MexcFuturesClient.submit_order` (`client.py` lines
162-189) on the dict-argument path: pydantic validation first — a
`ValidationError` is re-raised as `MexcValidationError` before `_request`
runs — then the POST and the response model. -/
def submit_order (f : NetworkFn) (order_params : List (String × PyVal)) :
    Except SdkFailure SubmitOrderResponse :=
  match mkSubmitOrderRequest order_params with
  | .error e =>
      .error (.mexc (mkValidationError ("Invalid order parameters: " ++ e) none))
  | .ok req =>
      match f ENDPOINTS_SUBMIT_ORDER req.model_dump with
      | .error e => .error e
      | .ok resp =>
          match parseSubmitOrderResponse resp with
          | .ok r => .ok r
          | .error s => .error (.pyError s)

/-- Embedding of the `CancelOrderResult` pydantic model
(`types/orders.py` lines 84-88). -/
structure CancelOrderResult where
  orderId : Int
  errorCode : Int
  errorMsg : String
deriving DecidableEq, Repr

/-- Validation performed by `CancelOrderResult(**item)`. -/
def parseCancelOrderResult (v : PyVal) : Except String CancelOrderResult :=
  match v with
  | .dict fs => do
      let orderId ← reqField fs "orderId" coerceInt
      let errorCode ← reqField fs "errorCode" coerceInt
      let errorMsg ← reqField fs "errorMsg" coerceStr
      .ok { orderId := orderId, errorCode := errorCode, errorMsg := errorMsg }
  | _ => .error "value is not a valid dict"

/-- Embedding of the `CancelOrderResponse` pydantic model
(`types/orders.py` lines 91-95). -/
structure CancelOrderResponse where
  success : Bool
  code : Int
  data : List CancelOrderResult
deriving DecidableEq, Repr

/-- Validation performed by `CancelOrderResponse(**response_data)`. -/
def parseCancelOrderResponse (v : PyVal) : Except String CancelOrderResponse :=
  match v with
  | .dict fs => do
      let success ← reqField fs "success" coerceBool
      let code ← reqField fs "code" coerceInt
      let data ← reqField fs "data" (coerceList parseCancelOrderResult)
      .ok { success := success, code := code, data := data }
  | _ => .error "value is not a valid dict"

/-- Embedding of `MexcFuturesClient.cancel_order` (`client.py` lines
191-214): local validation of the ID list — empty or longer than 50
raises `MexcValidationError` on the field `order_ids` before `_request`
runs — then the POST with the raw ID list as JSON body. -/
def cancel_order (f : NetworkFn) (order_ids : List Int) :
    Except SdkFailure CancelOrderResponse :=
  if order_ids = [] then
    .error (.mexc (mkValidationError "Order IDs list cannot be empty"
      (some "order_ids")))
  else if order_ids.length > 50 then
    .error (.mexc (mkValidationError "Cannot cancel more than 50 orders at once"
      (some "order_ids")))
  else
    match f ENDPOINTS_CANCEL_ORDER (.list (order_ids.map (fun i => .num (i : ℚ)))) with
    | .error e => .error e
    | .ok resp =>
        match parseCancelOrderResponse resp with
        | .ok r => .ok r
        | .error s => .error (.pyError s)

/-- Embedding of the `Order` pydantic model (`types/orders.py` lines
17-28). -/
structure Order where
  id : String
  symbol : String
  side : Int
  type : String
  vol : ℚ
  price : String
  leverage : Int
  status : String
  createTime : Int
  updateTime : Int
deriving DecidableEq, Repr

/-- Validation performed by `Order(**item)`. -/
def parseOrder (v : PyVal) : Except String Order :=
  match v with
  | .dict fs => do
      let id ← reqField fs "id" coerceStr
      let symbol ← reqField fs "symbol" coerceStr
      let side ← reqField fs "side" coerceInt
      let type ← reqField fs "type" coerceStr
      let vol ← reqField fs "vol" coerceFloat
      let price ← reqField fs "price" coerceStr
      let leverage ← reqField fs "leverage" coerceInt
      let status ← reqField fs "status" coerceStr
      let createTime ← reqField fs "createTime" coerceInt
      let updateTime ← reqField fs "updateTime" coerceInt
      .ok { id := id, symbol := symbol, side := side, type := type, vol := vol,
            price := price, leverage := leverage, status := status,
            createTime := createTime, updateTime := updateTime }
  | _ => .error "value is not a valid dict"

/-- Embedding of the `OrderHistoryData` pydantic model
(`types/orders.py` lines 31-34). -/
structure OrderHistoryData where
  orders : List Order
  total : Int
deriving DecidableEq, Repr

/-- Validation of an `OrderHistoryData` from a dict. -/
def parseOrderHistoryData (fields : List (String × PyVal)) :
    Except String OrderHistoryData := do
  let orders ← reqField fields "orders" (coerceList parseOrder)
  let total ← reqField fields "total" coerceInt
  .ok { orders := orders, total := total }

/-- Embedding of the `OrderHistoryResponse` pydantic model
(`types/orders.py` lines 37-49). -/
structure OrderHistoryResponse where
  success : Bool
  code : Int
  data : Option OrderHistoryData
deriving DecidableEq, Repr

/-- Embedding of `OrderHistoryResponse.validate_data`
(`types/orders.py` lines 43-49), the `mode='before'` validator on the
`data` field: an empty JSON list is replaced by
`OrderHistoryData(orders=[], total=0)`; every other value passes through
to normal validation. -/
def OrderHistoryResponse.validate_data (v : PyVal) : PyVal ⊕ OrderHistoryData :=
  match v with
  | .list [] => .inr { orders := [], total := 0 }
  | _ => .inl v

/-- The full pipeline of the `data` field: the before-validator, then
normal `Optional[OrderHistoryData]` validation. -/
def parseOrderHistoryDataField (v : PyVal) :
    Except String (Option OrderHistoryData) :=
  match OrderHistoryResponse.validate_data v with
  | .inr d => .ok (some d)
  | .inl .null => .ok none
  | .inl (.dict fs) => (parseOrderHistoryData fs).map some
  | .inl _ => .error "value is not a valid dict"

/-- Validation performed by `OrderHistoryResponse(**response_data)`. -/
def parseOrderHistoryResponse (v : PyVal) : Except String OrderHistoryResponse :=
  match v with
  | .dict fs => do
      let success ← reqField fs "success" coerceBool
      let code ← reqField fs "code" coerceInt
      let data ←
        match pyGet fs "data" with
        | none => .ok none
        | some dv => parseOrderHistoryDataField dv
      .ok { success := success, code := code, data := data }
  | _ => .error "value is not a valid dict"

/-- Overwriting assignment inside an existing dict, seen through
`find?`. -/
theorem find?_dictSet_map (d : HDict) (k v : String) :
    (d.map (fun p => if p.1 == k then (k, v) else p)).find? (fun p => p.1 == k)
      = if d.any (fun p => p.1 == k) then some (k, v) else none := by
  induction d with
  | nil => rfl
  | cons p d ih =>
    by_cases hp : p.1 = k
    · simp [hp]
    · have hfalse : (p.1 == k) = false := by simp [hp]
      simp only [List.map_cons, hfalse, Bool.false_eq_true, if_false,
        List.any_cons, Bool.false_or]
      rw [List.find?_cons_of_neg _ (by simp [hp]), ih]

/-- Overwriting assignment does not disturb lookups of other keys
(inside-the-dict branch). -/
theorem find?_dictSet_map_ne (d : HDict) (k v k' : String) (h : k' ≠ k) :
    (d.map (fun p => if p.1 == k then (k, v) else p)).find? (fun p => p.1 == k')
      = d.find? (fun p => p.1 == k') := by
  induction d with
  | nil => rfl
  | cons p d ih =>
    by_cases hp : p.1 = k
    · have htrue : (p.1 == k) = true := by simp [hp]
      simp only [List.map_cons, htrue, if_true]
      have h1 : ¬((k, v).1 == k') = true := by
        simp only [beq_iff_eq]
        exact Ne.symm h
      have h2 : ¬(p.1 == k') = true := by
        simp only [beq_iff_eq, hp]
        exact Ne.symm h
      rw [@List.find?_cons_of_neg _ (fun p => p.1 == k') (k, v) _ h1,
        @List.find?_cons_of_neg _ (fun p => p.1 == k') p _ h2, ih]
    · have hfalse : (p.1 == k) = false := by simp [hp]
      simp only [List.map_cons, hfalse, Bool.false_eq_true, if_false]
      by_cases hp' : p.1 = k'
      · rw [List.find?_cons_of_pos _ (by simp [hp']),
          List.find?_cons_of_pos _ (by simp [hp'])]
      · rw [List.find?_cons_of_neg _ (by simp [hp']),
          List.find?_cons_of_neg _ (by simp [hp']), ih]

/-- `d[k] = v` makes `d.get(k)` return `v`. -/
theorem dictGet_dictSet_self (d : HDict) (k v : String) :
    dictGet (dictSet d k v) k = some v := by
  unfold dictGet dictSet
  by_cases h : d.any (fun p => p.1 == k)
  · rw [if_pos h, find?_dictSet_map, if_pos h]
    rfl
  · rw [if_neg h, List.find?_append]
    have hnone : d.find? (fun p => p.1 == k) = none := by
      rw [List.find?_eq_none]
      intro p hp hbeq
      exact h (List.any_eq_true.mpr ⟨p, hp, hbeq⟩)
    rw [hnone]
    simp [List.find?]

/-- `d[k] = v` leaves `d.get(k')` unchanged for `k' ≠ k`. -/
theorem dictGet_dictSet_ne (d : HDict) (k v k' : String) (h : k' ≠ k) :
    dictGet (dictSet d k v) k' = dictGet d k' := by
  unfold dictGet dictSet
  by_cases hany : d.any (fun p => p.1 == k)
  · rw [if_pos hany, find?_dictSet_map_ne d k v k' h]
  · rw [if_neg hany, List.find?_append]
    have hone : List.find? (fun p => p.1 == k') [(k, v)] = none := by
      rw [List.find?_cons_of_neg _ (by simpa using Ne.symm h)]
      rfl
    rw [hone]
    simp

/-- Whether a string is free of whitespace characters. -/
def strNoWS (s : String) : Bool :=
  s.toList.all (fun c => !isSpaceChar c)

mutual

/-- Whether every string literal (and key) inside a payload is free of
whitespace. -/
def pyNoWS : PyVal → Bool
  | .null => true
  | .bool _ => true
  | .num _ => true
  | .str s => strNoWS s
  | .list xs => pyNoWSList xs
  | .dict fs => pyNoWSFields fs

/-- `pyNoWS` over array elements. -/
def pyNoWSList : List PyVal → Bool
  | [] => true
  | x :: xs => pyNoWS x && pyNoWSList xs

/-- `pyNoWS` over object fields. -/
def pyNoWSFields : List (String × PyVal) → Bool
  | [] => true
  | (k, v) :: fs => strNoWS k && pyNoWS v && pyNoWSFields fs

end

/-- Whitespace-freeness distributes over append. -/
theorem strNoWS_append (s t : String) :
    strNoWS (s ++ t) = (strNoWS s && strNoWS t) := by
  simp [strNoWS, String.toList, String.data_append, List.all_append]

/-- No decimal digit character is whitespace. -/
theorem isSpaceChar_digitChar (m : Nat) (hm : m < 10) :
    isSpaceChar (Nat.digitChar m) = false := by
  interval_cases m <;> decide

/-- The fuel-based digit rendering never produces whitespace. -/
theorem natToDecAux_noWS (fuel n : Nat) :
    (natToDecAux fuel n).all (fun c => !isSpaceChar c) = true := by
  induction fuel generalizing n with
  | zero => rfl
  | succ fuel ih =>
    rw [natToDecAux]
    by_cases hn : n = 0
    · rw [if_pos hn]; rfl
    · rw [if_neg hn, List.all_append]
      have h1 := ih (n / 10)
      have h2 : isSpaceChar (Nat.digitChar (n % 10)) = false :=
        isSpaceChar_digitChar _ (Nat.mod_lt n (by norm_num))
      simp [h1, h2]

/-- `natToDec` never produces whitespace. -/
theorem strNoWS_natToDec (n : Nat) : strNoWS (natToDec n) = true := by
  unfold natToDec
  by_cases hn : n = 0
  · rw [if_pos hn]; decide
  · rw [if_neg hn]
    simpa [strNoWS, List.asString, String.toList] using natToDecAux_noWS n n

/-- `intToDec` never produces whitespace. -/
theorem strNoWS_intToDec (i : Int) : strNoWS (intToDec i) = true := by
  unfold intToDec
  by_cases hi : i < 0
  · rw [if_pos hi, strNoWS_append, strNoWS_natToDec]
    decide
  · rw [if_neg hi]
    exact strNoWS_natToDec _

/-- `numRepr` never produces whitespace. -/
theorem strNoWS_numRepr (q : ℚ) : strNoWS (numRepr q) = true := by
  unfold numRepr
  by_cases hq : q.den = 1
  · rw [if_pos hq]; exact strNoWS_intToDec _
  · rw [if_neg hq, strNoWS_append, strNoWS_append, strNoWS_intToDec,
      strNoWS_natToDec]
    decide

/-- `jsonEscape` preserves whitespace-freeness (fold-level form). -/
theorem jsonEscape_foldl_noWS (cs : List Char) :
    ∀ acc : String, (∀ c ∈ cs, isSpaceChar c = false) → strNoWS acc = true →
    strNoWS (cs.foldl
      (fun acc c =>
        if c = '\\' then acc ++ "\\\\"
        else if c = '"' then acc ++ "\\\"" else acc ++ String.singleton c) acc)
      = true := by
  induction cs with
  | nil => intro acc _ hacc; exact hacc
  | cons c cs ih =>
    intro acc hcs hacc
    rw [List.foldl_cons]
    refine ih _ (fun d hd => hcs d (List.mem_cons_of_mem c hd)) ?_
    by_cases h1 : c = '\\'
    · rw [if_pos h1, strNoWS_append, hacc]; decide
    · rw [if_neg h1]
      by_cases h2 : c = '"'
      · rw [if_pos h2, strNoWS_append, hacc]; decide
      · rw [if_neg h2, strNoWS_append, hacc]
        have : strNoWS (String.singleton c) = true := by
          simp [strNoWS, String.singleton, String.toList,
            hcs c (List.mem_cons_self c cs)]
        simp [this]

/-- `jsonEscape` preserves whitespace-freeness. -/
theorem jsonEscape_noWS (s : String) (h : strNoWS s = true) :
    strNoWS (jsonEscape s) = true := by
  unfold jsonEscape
  refine jsonEscape_foldl_noWS s.toList "" ?_ (by decide)
  intro c hc
  have := (List.all_eq_true.mp h) c hc
  simpa using this

mutual

/-- The compact serializer inserts no whitespace: a payload whose
strings are whitespace-free serializes to a whitespace-free string. -/
theorem dumps_noWS : ∀ v : PyVal, pyNoWS v = true → strNoWS (dumps v) = true
  | .null, _ => by decide
  | .bool true, _ => by decide
  | .bool false, _ => by decide
  | .num q, _ => by rw [dumps]; exact strNoWS_numRepr q
  | .str s, h => by
      rw [dumps, strNoWS_append, strNoWS_append]
      have hs : strNoWS (jsonEscape s) = true :=
        jsonEscape_noWS s (by simpa [pyNoWS] using h)
      simp [hs]
      all_goals decide
  | .list xs, h => by
      rw [dumps, strNoWS_append, strNoWS_append]
      have hx := dumpsList_noWS xs (by simpa [pyNoWS] using h)
      simp [hx]
      all_goals decide
  | .dict fs, h => by
      rw [dumps, strNoWS_append, strNoWS_append]
      have hf := dumpsFields_noWS fs (by simpa [pyNoWS] using h)
      simp [hf]
      all_goals decide

/-- `dumps_noWS` over array elements. -/
theorem dumpsList_noWS : ∀ xs : List PyVal,
    pyNoWSList xs = true → strNoWS (dumpsList xs) = true
  | [], _ => by decide
  | [x], h => by
      rw [dumpsList]
      exact dumps_noWS x (by simpa [pyNoWSList] using h)
  | x :: y :: rest, h => by
      rw [dumpsList, strNoWS_append, strNoWS_append]
      have hh := h
      rw [pyNoWSList, Bool.and_eq_true] at hh
      have h1 := dumps_noWS x hh.1
      have h2 := dumpsList_noWS (y :: rest) hh.2
      simp [h1, h2]
      all_goals decide

/-- `dumps_noWS` over object fields. -/
theorem dumpsFields_noWS : ∀ fs : List (String × PyVal),
    pyNoWSFields fs = true → strNoWS (dumpsFields fs) = true
  | [], _ => by decide
  | [(k, v)], h => by
      rw [dumpsFields]
      have hh := h
      rw [pyNoWSFields, Bool.and_eq_true, Bool.and_eq_true] at hh
      rw [strNoWS_append, strNoWS_append, strNoWS_append]
      have h1 := jsonEscape_noWS k hh.1.1
      have h2 := dumps_noWS v hh.1.2
      simp [h1, h2]
      all_goals decide
  | (k, v) :: p :: rest, h => by
      rw [dumpsFields]
      have hh := h
      rw [pyNoWSFields, Bool.and_eq_true, Bool.and_eq_true] at hh
      rw [strNoWS_append, strNoWS_append, strNoWS_append, strNoWS_append,
        strNoWS_append]
      have h1 := jsonEscape_noWS k hh.1.1
      have h2 := dumps_noWS v hh.1.2
      have h3 := dumpsFields_noWS (p :: rest) hh.2
      simp [h1, h2, h3]
      all_goals decide

end

/-- Comma join with no surrounding whitespace, the shape of the compact
separators. -/
def joinComma : List String → String
  | [] => ""
  | [x] => x
  | x :: y :: rest => x ++ "," ++ joinComma (y :: rest)

/-- Array serialization is the in-order comma join of element
serializations. -/
theorem dumpsList_eq_joinComma : ∀ xs : List PyVal,
    dumpsList xs = joinComma (xs.map dumps)
  | [] => rfl
  | [x] => rfl
  | x :: y :: rest => by
      rw [dumpsList, dumpsList_eq_joinComma (y :: rest)]
      rfl

/-- Object serialization is the in-order comma join of `"key":value`
renderings: no field reordering. -/
theorem dumpsFields_eq_joinComma : ∀ fs : List (String × PyVal),
    dumpsFields fs
      = joinComma (fs.map (fun p => "\"" ++ jsonEscape p.1 ++ "\":" ++ dumps p.2))
  | [] => rfl
  | [(k, v)] => rfl
  | (k, v) :: p :: rest => by
      rw [dumpsFields, dumpsFields_eq_joinComma (p :: rest)]
      rfl

/-- C1: for every secret token `K` and payload `P`, `mexc_crypto` returns
a pair whose `time` is the captured millisecond clock as a decimal
string and whose `sign` is `md5hex(T + S + g)` with
`g = md5hex(K + T)[7:]` and `S` the compact serialization of `P`; the
serialization joins fields in order (no reordering) and inserts no
whitespace (whitespace-free payloads serialize whitespace-free). -/
theorem mexc_crypto_spec (md5hex : String → String) (now_ms : Nat)
    (key : String) (obj : PyVal) :
    (mexc_crypto md5hex now_ms key obj).time = natToDec now_ms
    ∧ (mexc_crypto md5hex now_ms key obj).sign
        = md5hex (natToDec now_ms ++ dumps obj
            ++ (md5hex (key ++ natToDec now_ms)).drop 7)
    ∧ (∀ fs, dumps (.dict fs)
        = "\x7b" ++ joinComma (fs.map
            (fun p => "\"" ++ jsonEscape p.1 ++ "\":" ++ dumps p.2)) ++ "\x7d")
    ∧ (∀ xs, dumps (.list xs) = "[" ++ joinComma (xs.map dumps) ++ "]")
    ∧ (pyNoWS obj = true → strNoWS (dumps obj) = true) := by
  refine ⟨rfl, rfl, ?_, ?_, dumps_noWS obj⟩
  · intro fs
    rw [dumps, dumpsFields_eq_joinComma]
  · intro xs
    rw [dumps, dumpsList_eq_joinComma]

/-- Witness for `mexc_crypto_spec` at a concrete token, clock reading and
payload. -/
theorem mexc_crypto_spec_witness :
    pyNoWS (PyVal.dict [("symbol", PyVal.str "BTC_USDT"), ("vol", PyVal.num 3)])
      = true
    ∧ strNoWS (dumps (PyVal.dict
        [("symbol", PyVal.str "BTC_USDT"), ("vol", PyVal.num 3)])) = true
    ∧ (mexc_crypto (fun s => s) 1700000000123 "WEBtoken"
        (PyVal.dict [("symbol", PyVal.str "BTC_USDT"), ("vol", PyVal.num 3)])).time
      = natToDec 1700000000123 :=
  ⟨by decide,
   (mexc_crypto_spec (fun s => s) 1700000000123 "WEBtoken"
      (PyVal.dict [("symbol", PyVal.str "BTC_USDT"), ("vol", PyVal.num 3)])).2.2.2.2
     (by decide),
   (mexc_crypto_spec (fun s => s) 1700000000123 "WEBtoken"
      (PyVal.dict [("symbol", PyVal.str "BTC_USDT"), ("vol", PyVal.num 3)])).1⟩

/-- C7: the signer is a deterministic function of token, timestamp and
serialized body, and at two distinct milliseconds the timestamp string
differs and — as long as the digest has no collision on the two signing
inputs and equal digest lengths on the two first-pass inputs, which MD5
guarantees — the signature differs too. -/
theorem mexc_crypto_deterministic (md5hex : String → String) (key : String)
    (obj : PyVal) (t1 t2 : Nat) (hne : t1 ≠ t2)
    (hglen : ((md5hex (key ++ natToDec t1)).drop 7).length
        = ((md5hex (key ++ natToDec t2)).drop 7).length)
    (hcoll : md5hex (sigInput md5hex t1 key obj)
          = md5hex (sigInput md5hex t2 key obj)
        → sigInput md5hex t1 key obj = sigInput md5hex t2 key obj) :
    mexc_crypto md5hex t1 key obj = mexc_crypto md5hex t1 key obj
    ∧ (mexc_crypto md5hex t1 key obj).time ≠ (mexc_crypto md5hex t2 key obj).time
    ∧ (mexc_crypto md5hex t1 key obj).sign
        ≠ (mexc_crypto md5hex t2 key obj).sign := by
  refine ⟨rfl, ?_, ?_⟩
  · show natToDec t1 ≠ natToDec t2
    exact fun hh => hne (natToDec_injective hh)
  · show md5hex (sigInput md5hex t1 key obj) ≠ md5hex (sigInput md5hex t2 key obj)
    intro hsign
    have hin : sigInput md5hex t1 key obj = sigInput md5hex t2 key obj :=
      hcoll hsign
    have hlen : (natToDec t1).length = (natToDec t2).length := by
      have h2 := congrArg String.length hin
      simp only [sigInput, String.length_append] at h2
      omega
    have hdata := congrArg String.toList hin
    simp only [sigInput, String.toList, String.data_append,
      List.append_assoc] at hdata
    have hT : (natToDec t1).data = (natToDec t2).data :=
      (List.append_inj hdata hlen).1
    exact hne (natToDec_injective (String.ext hT))

/-- Witness for `mexc_crypto_deterministic` at two concrete milliseconds
with a collision-free digest stand-in. -/
theorem mexc_crypto_deterministic_witness :
    (10 : Nat) ≠ 11
    ∧ (mexc_crypto (fun s => s) 10 "k" PyVal.null).time
      ≠ (mexc_crypto (fun s => s) 11 "k" PyVal.null).time
    ∧ (mexc_crypto (fun s => s) 10 "k" PyVal.null).sign
      ≠ (mexc_crypto (fun s => s) 11 "k" PyVal.null).sign :=
  ⟨by decide,
   (mexc_crypto_deterministic (fun s => s) "k" PyVal.null 10 11 (by decide)
      rfl (fun h => h)).2.1,
   (mexc_crypto_deterministic (fun s => s) "k" PyVal.null 10 11 (by decide)
      rfl (fun h => h)).2.2⟩

/-- C9: every `MexcAuthenticationError` carries the string code
`"AUTH_ERROR"` and status 401; since its user-friendly-message guard
compares that string code with the int 401, the token-expired branch is
unreachable and the method always renders the generic fallback. -/
theorem mkAuthenticationError_spec (m : Option String) :
    (mkAuthenticationError m).code = PyVal.str "AUTH_ERROR"
    ∧ (mkAuthenticationError m).status_code = some 401
    ∧ pyEqNum (mkAuthenticationError m).code 401 = false
    ∧ authUserFriendlyMessage (mkAuthenticationError m)
        = "❌ Authentication error: " ++ (mkAuthenticationError m).message
    ∧ authUserFriendlyMessage (mkAuthenticationError m) ≠ authExpiredText := by
  have hform : authUserFriendlyMessage (mkAuthenticationError m)
      = "❌ Authentication error: " ++ (mkAuthenticationError m).message := by
    simp [authUserFriendlyMessage, mkAuthenticationError, pyEqNum]
  refine ⟨rfl, rfl, rfl, hform, ?_⟩
  intro hEq
  rw [hform] at hEq
  have hlist := congrArg (fun s => s.toList.take 19) hEq
  simp only [String.toList, String.data_append] at hlist
  rw [List.take_append_of_le_length (by decide)] at hlist
  exact absurd hlist (by decide)

/-- C3: depth-entry normalization maps `[113035.6, 79465, 1]` to
`(price 113035.6, volume 79465, count 1)`, the two-element array
`[113035.7, 75669]` to a count-less entry, and the object
`(price 1, volume 2)` to the same canonical type with `count`
defaulting to `None`; in general every numeric array of at least two
elements and every well-formed object normalize into `DepthEntry`. -/
theorem depth_entry_normalization :
    DepthEntry.validate (.list [.num (1130356/10), .num 79465, .num 1])
      = .ok { price := 1130356/10, volume := 79465, count := some 1 }
    ∧ DepthEntry.validate (.list [.num (1130357/10), .num 75669])
      = .ok { price := 1130357/10, volume := 75669, count := none }
    ∧ DepthEntry.validate (.dict [("price", .num 1), ("volume", .num 2)])
      = .ok { price := 1, volume := 2, count := none }
    ∧ (∀ p v : ℚ,
        DepthEntry.validate (.dict [("price", .num p), ("volume", .num v)])
          = .ok { price := p, volume := v, count := none })
    ∧ (∀ (a b : ℚ) (rest : List ℚ), ∃ e : DepthEntry,
        DepthEntry.validate (.list (.num a :: .num b :: rest.map .num)) = .ok e) := by
  refine ⟨rfl, rfl, rfl, fun p v => rfl, ?_⟩
  intro a b rest
  cases rest with
  | nil => exact ⟨{ price := a, volume := b, count := none }, rfl⟩
  | cons c cs => exact ⟨{ price := a, volume := b, count := some (ratTrunc c) }, rfl⟩

/-- C10: an order-history response whose `data` field arrives as an
empty JSON list is normalized by the before-validator to
`OrderHistoryData(orders=[], total=0)` instead of failing validation or
keeping a list. -/
theorem order_history_empty_list (b : Bool) (c : Int) :
    OrderHistoryResponse.validate_data (.list [])
      = Sum.inr { orders := [], total := 0 }
    ∧ parseOrderHistoryDataField (.list [])
      = .ok (some { orders := [], total := 0 })
    ∧ parseOrderHistoryResponse
        (.dict [("success", .bool b), ("code", .num (c : ℚ)), ("data", .list [])])
      = .ok { success := b, code := c,
              data := some { orders := [], total := 0 } } := by
  refine ⟨rfl, rfl, ?_⟩
  simp [parseOrderHistoryResponse, reqField, pyGet, coerceBool, coerceInt,
    parseOrderHistoryDataField, OrderHistoryResponse.validate_data]
  rfl

/-- Splitting an `Except` bind that succeeded. -/
theorem exceptBind_ok {α β : Type} {x : Except String α} {g : α → Except String β}
    {b : β} (h : (x >>= g) = .ok b) : ∃ a, x = .ok a ∧ g a = .ok b := by
  cases x with
  | error e => exact absurd h (by simp [Bind.bind, Except.bind])
  | ok a => exact ⟨a, rfl, by simpa [Bind.bind, Except.bind] using h⟩

/-- C8: `cancel_order` raises the empty-list validation error on `[]`,
the over-50 validation error past 50 IDs — both independent of the
network function, hence before any call — and otherwise proceeds to the
POST with the raw ID list. -/
theorem cancel_order_local_validation (order_ids : List Int) (f : NetworkFn) :
    (order_ids = [] →
      cancel_order f order_ids
        = .error (.mexc (mkValidationError "Order IDs list cannot be empty"
            (some "order_ids"))))
    ∧ (order_ids.length > 50 →
      cancel_order f order_ids
        = .error (.mexc (mkValidationError "Cannot cancel more than 50 orders at once"
            (some "order_ids"))))
    ∧ (order_ids ≠ [] → order_ids.length ≤ 50 →
      cancel_order f order_ids
        = match f ENDPOINTS_CANCEL_ORDER
            (.list (order_ids.map (fun i => .num (i : ℚ)))) with
          | .error e => .error e
          | .ok resp =>
              match parseCancelOrderResponse resp with
              | .ok r => .ok r
              | .error s => .error (.pyError s)) := by
  refine ⟨?_, ?_, ?_⟩
  · intro h
    rw [cancel_order, if_pos h]
  · intro h
    have hne : ¬order_ids = [] := by
      intro hh
      rw [hh] at h
      simp at h
    rw [cancel_order, if_neg hne, if_pos h]
  · intro h1 h2
    rw [cancel_order, if_neg h1, if_neg (by omega : ¬order_ids.length > 50)]

/-- Witness for `cancel_order_local_validation`: the empty list and a
51-element list fail locally for every network function, a singleton
list reaches the network function. -/
theorem cancel_order_local_validation_witness :
    cancel_order (fun _ _ => .error (.pyError "no network")) []
      = .error (.mexc (mkValidationError "Order IDs list cannot be empty"
          (some "order_ids")))
    ∧ cancel_order (fun _ _ => .error (.pyError "no network"))
        (List.replicate 51 7)
      = .error (.mexc (mkValidationError "Cannot cancel more than 50 orders at once"
          (some "order_ids")))
    ∧ cancel_order (fun _ _ => .error (.pyError "no network")) [5]
      = .error (.pyError "no network") := by
  refine ⟨(cancel_order_local_validation [] _).1 rfl,
    (cancel_order_local_validation (List.replicate 51 7) _).2.1 (by decide), ?_⟩
  have h := (cancel_order_local_validation [5]
    (fun _ _ => .error (.pyError "no network"))).2.2 (by decide) (by decide)
  exact h

/-- C5: a dict of order parameters whose `side` value lies outside
`{1, 2, 3, 4}` makes `submit_order` fail pydantic validation and raise a
`MexcValidationError` whose message wraps the pydantic error — for every
network function, hence before any HTTP request. -/
theorem submit_order_side_validation (d : List (String × PyVal)) (f : NetworkFn)
    (v : PyVal) (hside : pyGet d "side" = some v)
    (hout : ∀ q : ℚ, (q = 1 ∨ q = 2 ∨ q = 3 ∨ q = 4) → v ≠ PyVal.num q) :
    ∃ msg, submit_order f d
      = .error (.mexc (mkValidationError ("Invalid order parameters: " ++ msg)
          none)) := by
  cases h : mkSubmitOrderRequest d with
  | error e =>
      refine ⟨e, ?_⟩
      rw [submit_order, h]
  | ok req =>
      exfalso
      rw [mkSubmitOrderRequest] at h
      obtain ⟨symbol, hs1, h⟩ := exceptBind_ok h
      obtain ⟨price, hs2, h⟩ := exceptBind_ok h
      obtain ⟨vol, hs3, h⟩ := exceptBind_ok h
      obtain ⟨lev, hs4, h⟩ := exceptBind_ok h
      obtain ⟨side, hs5, h⟩ := exceptBind_ok h
      rw [reqField, hside] at hs5
      cases v with
      | num q =>
          simp only [coerceLiteral] at hs5
          by_cases hq : ([1, 2, 3, 4] : List ℚ).contains q
          · have hq' : q = 1 ∨ q = 2 ∨ q = 3 ∨ q = 4 := by simpa using hq
            exact hout q hq' rfl
          · rw [if_neg hq] at hs5
            exact absurd hs5 (by simp)
      | null => exact absurd hs5 (by simp [coerceLiteral])
      | bool b => exact absurd hs5 (by simp [coerceLiteral])
      | str s => exact absurd hs5 (by simp [coerceLiteral])
      | list xs => exact absurd hs5 (by simp [coerceLiteral])
      | dict fs => exact absurd hs5 (by simp [coerceLiteral])

/-- Witness for `submit_order_side_validation` at `side = 9`. -/
theorem submit_order_side_validation_witness :
    pyGet [("side", PyVal.num 9)] "side" = some (PyVal.num 9)
    ∧ ∃ msg, submit_order (fun _ _ => .error (.pyError "no network"))
        [("side", PyVal.num 9)]
      = .error (.mexc (mkValidationError ("Invalid order parameters: " ++ msg)
          none)) :=
  ⟨rfl,
   submit_order_side_validation [("side", PyVal.num 9)]
     (fun _ _ => .error (.pyError "no network")) (PyVal.num 9) rfl
     (by
       intro q hq hcontra
       injection hcontra with hinj
       rcases hq with h1 | h1 | h1 | h1 <;> rw [h1] at hinj <;> norm_num at hinj)⟩

/-- C6 counterexample: a 429 response whose `retry-after` header is the
non-numeric string `"abc"` makes the classifier raise `ValueError` from
`int(retry_after)` instead of returning a RateLimit error. -/
theorem rate_limit_counterexample :
    parse_httpx_error
      (.httpStatusError "429 Too Many Requests"
        { status_code := 429, jsonBody := none, text := "",
          headers := [("retry-after", "abc")] }) none none
      = .error "ValueError: invalid literal for int"
    ∧ ∀ e : MexcErr,
        parse_httpx_error
          (.httpStatusError "429 Too Many Requests"
            { status_code := 429, jsonBody := none, text := "",
              headers := [("retry-after", "abc")] }) none none
          ≠ .ok e :=
  ⟨rfl, fun _ h => Except.noConfusion h⟩

/-- C6 amended: a 429 status yields a RateLimit error whenever the
`retry-after` header is absent, empty, or parses as an integer: an
absent or empty header leaves `retry_after = None`, a header parsing to
the integer `n` attaches `retry_after = n`, and in particular
`retry-after: 5` attaches `retry_after = 5`.  (A non-empty, non-numeric
header instead raises `ValueError`, per `rate_limit_counterexample`.) -/
theorem rate_limit_classification (resp : HttpResponse) (e m : Option String)
    (errMsg : String) (h429 : resp.status_code = 429) :
    (headerGet resp.headers "retry-after" = none →
      parse_httpx_error (.httpStatusError errMsg resp) e m
        = .ok (mkRateLimitError (extractedMessage resp errMsg) none)
      ∧ (mkRateLimitError (extractedMessage resp errMsg) none).kind = .rateLimit
      ∧ (mkRateLimitError (extractedMessage resp errMsg) none).retry_after
          = none)
    ∧ (headerGet resp.headers "retry-after" = some "" →
      parse_httpx_error (.httpStatusError errMsg resp) e m
        = .ok (mkRateLimitError (extractedMessage resp errMsg) none)
      ∧ (mkRateLimitError (extractedMessage resp errMsg) none).kind = .rateLimit
      ∧ (mkRateLimitError (extractedMessage resp errMsg) none).retry_after
          = none)
    ∧ (∀ (ra : String) (n : Int), headerGet resp.headers "retry-after" = some ra →
        pyParseInt ra = some n →
      parse_httpx_error (.httpStatusError errMsg resp) e m
        = .ok (mkRateLimitError (extractedMessage resp errMsg) (some n))
      ∧ (mkRateLimitError (extractedMessage resp errMsg) (some n)).kind
          = .rateLimit
      ∧ (mkRateLimitError (extractedMessage resp errMsg) (some n)).retry_after
          = some n)
    ∧ (headerGet resp.headers "retry-after" = some "5" →
      parse_httpx_error (.httpStatusError errMsg resp) e m
        = .ok (mkRateLimitError (extractedMessage resp errMsg) (some 5))
      ∧ (mkRateLimitError (extractedMessage resp errMsg) (some 5)).kind
          = .rateLimit
      ∧ (mkRateLimitError (extractedMessage resp errMsg) (some 5)).retry_after
          = some 5) := by
  refine ⟨?_, ?_, ?_, ?_⟩
  · intro hra
    refine ⟨?_, rfl, rfl⟩
    simp only [parse_httpx_error, h429, hra]
    norm_num
  · intro hra
    refine ⟨?_, rfl, rfl⟩
    simp only [parse_httpx_error, h429, hra]
    norm_num
  · intro ra n hra hn
    refine ⟨?_, rfl, rfl⟩
    by_cases hre : ra = ""
    · subst hre
      exact absurd hn (by simp [pyParseInt, trimChars, decDigitsToNat])
    · simp only [parse_httpx_error, h429, hra]
      norm_num
      rw [if_neg hre, hn]
  · intro hra
    refine ⟨?_, rfl, rfl⟩
    simp only [parse_httpx_error, h429, hra]
    norm_num
    rfl

/-- Witness for `rate_limit_classification` at four concrete 429
responses: no `retry-after` header, an empty one, an integer one under
httpx case-insensitive lookup, and the documented `retry-after: 5`. -/
theorem rate_limit_classification_witness :
    parse_httpx_error
      (.httpStatusError "429 Too Many Requests"
        { status_code := 429, jsonBody := none, text := "", headers := [] })
      none none
      = .ok (mkRateLimitError "429 Too Many Requests" none)
    ∧ parse_httpx_error
        (.httpStatusError "429 Too Many Requests"
          { status_code := 429, jsonBody := none, text := "",
            headers := [("retry-after", "")] }) none none
      = .ok (mkRateLimitError "429 Too Many Requests" none)
    ∧ parse_httpx_error
        (.httpStatusError "429 Too Many Requests"
          { status_code := 429, jsonBody := none, text := "",
            headers := [("Retry-After", "17")] }) none none
      = .ok (mkRateLimitError "429 Too Many Requests" (some 17))
    ∧ parse_httpx_error
        (.httpStatusError "429 Too Many Requests"
          { status_code := 429, jsonBody := none, text := "",
            headers := [("retry-after", "5")] }) none none
      = .ok (mkRateLimitError "429 Too Many Requests" (some 5)) :=
  ⟨((rate_limit_classification
      { status_code := 429, jsonBody := none, text := "", headers := [] }
      none none "429 Too Many Requests" rfl).1 rfl).1,
   ((rate_limit_classification
      { status_code := 429, jsonBody := none, text := "",
        headers := [("retry-after", "")] } none none "429 Too Many Requests"
      rfl).2.1 rfl).1,
   ((rate_limit_classification
      { status_code := 429, jsonBody := none, text := "",
        headers := [("Retry-After", "17")] } none none "429 Too Many Requests"
      rfl).2.2.1 "17" 17 rfl rfl).1,
   ((rate_limit_classification
      { status_code := 429, jsonBody := none, text := "",
        headers := [("retry-after", "5")] } none none "429 Too Many Requests"
      rfl).2.2.2 rfl).1⟩

/-- C2 counterexample: a 401 response whose JSON body carries
`code = 602` and a signature message is classified as an Authentication
error, not a Signature error — the 401 branch runs first. -/
theorem signature_classification_counterexample :
    parse_httpx_error
      (.httpStatusError "401 Unauthorized"
        { status_code := 401,
          jsonBody := some (.dict
            [("code", .num 602), ("message", .str "signature invalid")]),
          text := "", headers := [] }) none none
      = .ok (mkAuthenticationError (some "signature invalid"))
    ∧ (mkAuthenticationError (some "signature invalid")).kind
        = ErrKind.authentication
    ∧ ErrKind.authentication ≠ ErrKind.signature :=
  ⟨rfl, rfl, by decide⟩

/-- C2 amended: for every HTTP status error whose status is neither 401
nor 429, a JSON body whose `code` field equals 602 — or whose message
contains the keyword "signature" — is classified as a Signature error;
statuses 401 and 429 take precedence (see the counterexample). -/
theorem signature_classification (resp : HttpResponse)
    (fields : List (String × PyVal)) (e m : Option String) (errMsg : String)
    (h401 : resp.status_code ≠ 401) (h429 : resp.status_code ≠ 429)
    (hbody : resp.jsonBody = some (.dict fields))
    (hsig : pyGet fields "code" = some (.num 602)
      ∨ strHasSub "signature"
          (strLower (pyStr ((pyGet fields "message").getD (.str errMsg))))
        = true) :
    parse_httpx_error (.httpStatusError errMsg resp) e m
      = .ok (mkSignatureError (some (extractedMessage resp errMsg)))
    ∧ (mkSignatureError (some (extractedMessage resp errMsg))).kind
        = ErrKind.signature := by
  refine ⟨?_, rfl⟩
  simp only [parse_httpx_error]
  rw [if_neg h401, if_neg h429]
  have hcond : (pyEqNum (extractedCode resp errMsg) 602
      || strHasSub "signature" (strLower (extractedMessage resp errMsg))) = true := by
    rcases hsig with hc | hm
    · have : extractedCode resp errMsg = .num 602 := by
        simp [extractedCode, extractPair, hbody, hc]
      simp [this, pyEqNum]
    · have : extractedMessage resp errMsg
          = pyStr ((pyGet fields "message").getD (.str errMsg)) := by
        simp [extractedMessage, extractPair, hbody]
      simp [this, hm]
  rw [if_pos hcond]

/-- Witness for `signature_classification` at a concrete 500 response
with body code 602. -/
theorem signature_classification_witness :
    (500 : Int) ≠ 401
    ∧ (500 : Int) ≠ 429
    ∧ parse_httpx_error
        (.httpStatusError "500 Server Error"
          { status_code := 500,
            jsonBody := some (.dict
              [("code", .num 602), ("message", .str "signature invalid")]),
            text := "", headers := [] }) none none
      = .ok (mkSignatureError (some "signature invalid")) :=
  ⟨by decide, by decide,
   (signature_classification
      { status_code := 500,
        jsonBody := some (.dict
          [("code", .num 602), ("message", .str "signature invalid")]),
        text := "", headers := [] }
      [("code", .num 602), ("message", .str "signature invalid")]
      none none "500 Server Error" (by decide) (by decide) rfl
      (Or.inl rfl)).1⟩

/-- C4: `generate_headers` equals the spec-side overlay composition —
defaults, then caller user-agent (when present and non-empty, per Python
truthiness), then custom headers, then the bearer token exactly when
authentication is required — and the two signature fields are attached
exactly when authentication is required and a body is present; with no
body only the bearer token is attached and no signature is computed. -/
theorem generate_headers_spec (md5hex : String → String) (now_ms : Nat)
    (options : SDKOptions) (include_auth : Bool) (request_body : Option PyVal) :
    generate_headers md5hex now_ms options include_auth request_body
      = headersSpec md5hex now_ms options include_auth request_body
    ∧ dictGet (generate_headers md5hex now_ms options include_auth request_body)
        "authorization"
      = (if include_auth then some options.auth_token
         else dictGet (headersBase options) "authorization")
    ∧ dictGet (generate_headers md5hex now_ms options include_auth request_body)
        "x-mxc-nonce"
      = (match include_auth, request_body with
         | true, some body =>
             some (mexc_crypto md5hex now_ms options.auth_token body).time
         | _, _ => dictGet (headersBase options) "x-mxc-nonce")
    ∧ dictGet (generate_headers md5hex now_ms options include_auth request_body)
        "x-mxc-sign"
      = (match include_auth, request_body with
         | true, some body =>
             some (mexc_crypto md5hex now_ms options.auth_token body).sign
         | _, _ => dictGet (headersBase options) "x-mxc-sign") := by
  have heq : generate_headers md5hex now_ms options include_auth request_body
      = headersSpec md5hex now_ms options include_auth request_body := by
    rcases options with ⟨tok, ua, custom⟩
    cases ua with
    | none => cases include_auth <;> cases request_body <;> rfl
    | some u =>
        by_cases hu : u = ""
        · subst hu
          cases include_auth <;> cases request_body <;> rfl
        · cases include_auth <;> cases request_body <;>
            simp [generate_headers, headersSpec, headersBase, uaOverlay, hu,
              dictUpdate]
  refine ⟨heq, ?_, ?_, ?_⟩ <;> rw [heq] <;>
    cases include_auth <;> cases request_body <;>
    simp only [headersSpec, dictUpdate, List.foldl, if_true, reduceIte]
  · rfl
  · rfl
  · rw [dictGet_dictSet_self]
  · rw [dictGet_dictSet_ne _ _ _ _ (by decide),
      dictGet_dictSet_ne _ _ _ _ (by decide), dictGet_dictSet_self]
  · rfl
  · rfl
  · rw [dictGet_dictSet_ne _ _ _ _ (by decide)]
  · rw [dictGet_dictSet_ne _ _ _ _ (by decide), dictGet_dictSet_self]
  · rfl
  · rfl
  · rw [dictGet_dictSet_ne _ _ _ _ (by decide)]
  · rw [dictGet_dictSet_self]
